import Mathlib

/-!
Verification development for the certifai provenance toolkit.

This file gives a shallow embedding, in Lean 4, of the core of the
certifai lifecycle engine (src/certifai): the metadata model
(`models.py`), the decorator codec (`decorators.py`), the digest engine
(`digest.py`, `history.py`), the text mutator (`metadata.py`), the
registry store (`registry.py`), and the finalize / certify / reconcile
operations (`finalize.py`, `certify.py`, `checks.py`).

Modelling conventions:
* A source file's content is a `List String` of newline-free lines
  (Python reads files and immediately calls `splitlines()`).
* Python's `ast` parser is an external capability of the scanner; where
  an operation consumes parse results they are passed in as values
  (`artifacts : List CodeArtifact`) or as an oracle
  (`pd : String → Option String` standing for
  `ast.dump(ast.parse(s), include_attributes=False)`, `none` on a
  `SyntaxError`).
* `git` blame lookups are passed in as values (`Option CommitInfo`
  together with an `Option Bool` repository-dirty state).
* `hashlib.sha1` / `hashlib.sha256` are implemented bit-faithfully over
  `Nat` (checked below against standard test vectors).
* Strings appearing in decorator keyword arguments are modelled at the
  keyword / literal level (`PyValue`); the textual rendering of a string
  literal and its re-parsing are mutually inverse for the strings the
  tool writes, so the composition `decode ∘ encode` is modelled as
  `metadata_from_decorator ∘ to_decorator_payload` with `_literal_value`
  applied to each keyword value.
-/

namespace Certifai

/-! ## Small Python string helpers -/

/-- Characters Python's `str.strip()` removes. -/
def pySpaceChar (c : Char) : Bool :=
  c = ' ' || c = '\t' || c = '\n' || c = '\r' || c = '\x0b' || c = '\x0c'

/-- Python `str.strip()`. -/
def pyStrip (s : String) : String :=
  let l := (s.data.dropWhile pySpaceChar).reverse.dropWhile pySpaceChar
  String.mk l.reverse

/-- ASCII lower-casing of one character (Python `str.lower()` on the
ASCII strings the tool manipulates). -/
def lowerChar (c : Char) : Char :=
  if 'A' ≤ c && c ≤ 'Z' then Char.ofNat (c.toNat + 32) else c

/-- ASCII `str.lower()`. -/
def strLower (s : String) : String := String.mk (s.data.map lowerChar)

/-- Python `sep.join(xs)`. -/
def pyJoin (sep : String) : List String → String
  | [] => ""
  | [x] => x
  | x :: y :: rest => x ++ sep ++ pyJoin sep (y :: rest)

/-! ## Byte-level hashing (`hashlib.sha1`, `hashlib.sha256`)

Both digests are computed over the UTF-8 encoding of a string. -/

/-- UTF-8 encoding of one character, as byte values. -/
def utf8Char (c : Char) : List Nat :=
  let n := c.toNat
  if n < 0x80 then [n]
  else if n < 0x800 then [0xC0 + n / 0x40, 0x80 + n % 0x40]
  else if n < 0x10000 then
    [0xE0 + n / 0x1000, 0x80 + n / 0x40 % 0x40, 0x80 + n % 0x40]
  else
    [0xF0 + n / 0x40000, 0x80 + n / 0x1000 % 0x40,
     0x80 + n / 0x40 % 0x40, 0x80 + n % 0x40]

/-- `s.encode("utf-8")` as a list of byte values. -/
def utf8Bytes (s : String) : List Nat := s.data.flatMap utf8Char

/-- Truncation to a 32-bit word. -/
def w32 (n : Nat) : Nat := n % 4294967296

/-- 32-bit left rotation. -/
def rotl (k x : Nat) : Nat := w32 ((x <<< k) ||| (x >>> (32 - k)))

/-- 32-bit right rotation. -/
def rotr (k x : Nat) : Nat := w32 ((x >>> k) ||| (x <<< (32 - k)))

/-- Big-endian byte decomposition (`k` bytes, most significant first). -/
def beBytes : Nat → Nat → List Nat
  | 0, _ => []
  | k + 1, n => beBytes k (n >>> 8) ++ [n % 256]

/-- Merkle–Damgård padding shared by SHA-1 and SHA-256: append `0x80`,
zeros up to 56 mod 64, then the 64-bit big-endian bit length. -/
def shaPad (msg : List Nat) : List Nat :=
  let z := (119 - msg.length % 64) % 64
  msg ++ [0x80] ++ List.replicate z 0 ++ beBytes 8 (msg.length * 8)

/-- Split a byte list into 64-byte chunks (structural recursion on a
fuel bound so that the kernel can evaluate it). -/
def chunks64Go : Nat → List Nat → List (List Nat)
  | 0, _ => []
  | _, [] => []
  | fuel + 1, x :: rest => (x :: rest).take 64 :: chunks64Go fuel (rest.drop 63)

/-- Split a byte list into 64-byte chunks. -/
def chunks64 (l : List Nat) : List (List Nat) := chunks64Go l.length l

/-- Big-endian 32-bit words of a byte chunk. -/
def bytesToWords : List Nat → List Nat
  | b0 :: b1 :: b2 :: b3 :: rest =>
      (((b0 <<< 8 ||| b1) <<< 8 ||| b2) <<< 8 ||| b3) :: bytesToWords rest
  | _ => []

/-- SHA-1 state. -/
structure H5 where
  a : Nat
  b : Nat
  c : Nat
  d : Nat
  e : Nat
deriving DecidableEq

def sha1Init : H5 := ⟨1732584193, 4023233417, 2562383102, 271733878, 3285377520⟩

/-- SHA-1 message schedule: expand 16 words to 80. -/
def sha1Schedule (ws : List Nat) : Array Nat :=
  (List.range 64).foldl
    (fun w _ =>
      let n := w.size
      w.push (rotl 1 ((w.getD (n - 3) 0) ^^^ (w.getD (n - 8) 0) ^^^
                      (w.getD (n - 14) 0) ^^^ (w.getD (n - 16) 0))))
    (Array.mk ws)

/-- One SHA-1 compression round. -/
def sha1Round (st : H5) (i w : Nat) : H5 :=
  let f :=
    if i < 20 then (st.b &&& st.c) ||| ((st.b ^^^ 4294967295) &&& st.d)
    else if i < 40 then st.b ^^^ st.c ^^^ st.d
    else if i < 60 then (st.b &&& st.c) ||| (st.b &&& st.d) ||| (st.c &&& st.d)
    else st.b ^^^ st.c ^^^ st.d
  let k :=
    if i < 20 then 1518500249
    else if i < 40 then 1859775393
    else if i < 60 then 2400959708
    else 3395469782
  ⟨w32 (rotl 5 st.a + f + st.e + k + w), st.a, rotl 30 st.b, st.c, st.d⟩

/-- SHA-1 compression of one 16-word block. -/
def sha1Block (h : H5) (ws : List Nat) : H5 :=
  let sched := sha1Schedule ws
  let st := (List.range 80).foldl (fun st i => sha1Round st i (sched.getD i 0)) h
  ⟨w32 (h.a + st.a), w32 (h.b + st.b), w32 (h.c + st.c),
   w32 (h.d + st.d), w32 (h.e + st.e)⟩

/-- SHA-1 of a byte string. -/
def sha1 (msg : List Nat) : H5 :=
  (chunks64 (shaPad msg)).foldl (fun h chunk => sha1Block h (bytesToWords chunk)) sha1Init

/-- The sixteen lowercase hexadecimal digit characters. -/
def hexDigits : List Char := "0123456789abcdef".data

/-- One hex digit character. -/
def hexChar (n : Nat) : Char := hexDigits.getD n '0'

/-- Eight hex characters of one 32-bit word, most significant first. -/
def wordHex (w : Nat) : List Char :=
  [hexChar (w >>> 28 % 16), hexChar (w >>> 24 % 16), hexChar (w >>> 20 % 16),
   hexChar (w >>> 16 % 16), hexChar (w >>> 12 % 16), hexChar (w >>> 8 % 16),
   hexChar (w >>> 4 % 16), hexChar (w % 16)]

/-- `hashlib.sha1(msg).hexdigest()`. -/
def sha1Hex (msg : List Nat) : String :=
  let h := sha1 msg
  String.mk (wordHex h.a ++ wordHex h.b ++ wordHex h.c ++ wordHex h.d ++ wordHex h.e)

/-- SHA-256 state. -/
structure H8 where
  a : Nat
  b : Nat
  c : Nat
  d : Nat
  e : Nat
  f : Nat
  g : Nat
  h : Nat
deriving DecidableEq

def sha256Init : H8 :=
  ⟨1779033703, 3144134277, 1013904242, 2773480762,
   1359893119, 2600822924, 528734635, 1541459225⟩

/-- The SHA-256 round constants (FIPS 180-4, in decimal). -/
def sha256K : Array Nat := Array.mk
  [1116352408, 1899447441, 3049323471, 3921009573, 961987163, 1508970993,
   2453635748, 2870763221, 3624381080, 310598401, 607225278, 1426881987,
   1925078388, 2162078206, 2614888103, 3248222580, 3835390401, 4022224774,
   264347078, 604807628, 770255983, 1249150122, 1555081692, 1996064986,
   2554220882, 2821834349, 2952996808, 3210313671, 3336571891, 3584528711,
   113926993, 338241895, 666307205, 773529912, 1294757372, 1396182291,
   1695183700, 1986661051, 2177026350, 2456956037, 2730485921, 2820302411,
   3259730800, 3345764771, 3516065817, 3600352804, 4094571909, 275423344,
   430227734, 506948616, 659060556, 883997877, 958139571, 1322822218,
   1537002063, 1747873779, 1955562222, 2024104815, 2227730452, 2361852424,
   2428436474, 2756734187, 3204031479, 3329325298]

/-- SHA-256 message schedule: expand 16 words to 64. -/
def sha256Schedule (ws : List Nat) : Array Nat :=
  (List.range 48).foldl
    (fun w _ =>
      let n := w.size
      let x := w.getD (n - 15) 0
      let y := w.getD (n - 2) 0
      let s0 := rotr 7 x ^^^ rotr 18 x ^^^ (x >>> 3)
      let s1 := rotr 17 y ^^^ rotr 19 y ^^^ (y >>> 10)
      w.push (w32 (w.getD (n - 16) 0 + s0 + w.getD (n - 7) 0 + s1)))
    (Array.mk ws)

/-- One SHA-256 compression round. -/
def sha256Round (st : H8) (i w : Nat) : H8 :=
  let s1 := rotr 6 st.e ^^^ rotr 11 st.e ^^^ rotr 25 st.e
  let ch := (st.e &&& st.f) ^^^ ((st.e ^^^ 4294967295) &&& st.g)
  let t1 := w32 (st.h + s1 + ch + sha256K.getD i 0 + w)
  let s0 := rotr 2 st.a ^^^ rotr 13 st.a ^^^ rotr 22 st.a
  let mj := (st.a &&& st.b) ^^^ (st.a &&& st.c) ^^^ (st.b &&& st.c)
  let t2 := w32 (s0 + mj)
  ⟨w32 (t1 + t2), st.a, st.b, st.c, w32 (st.d + t1), st.e, st.f, st.g⟩

/-- SHA-256 compression of one 16-word block. -/
def sha256Block (h : H8) (ws : List Nat) : H8 :=
  let sched := sha256Schedule ws
  let st := (List.range 64).foldl (fun st i => sha256Round st i (sched.getD i 0)) h
  ⟨w32 (h.a + st.a), w32 (h.b + st.b), w32 (h.c + st.c), w32 (h.d + st.d),
   w32 (h.e + st.e), w32 (h.f + st.f), w32 (h.g + st.g), w32 (h.h + st.h)⟩

/-- SHA-256 of a byte string. -/
def sha256 (msg : List Nat) : H8 :=
  (chunks64 (shaPad msg)).foldl (fun h chunk => sha256Block h (bytesToWords chunk)) sha256Init

/-- `hashlib.sha256(msg).hexdigest()`. -/
def sha256Hex (msg : List Nat) : String :=
  let h := sha256 msg
  String.mk (wordHex h.a ++ wordHex h.b ++ wordHex h.c ++ wordHex h.d ++
             wordHex h.e ++ wordHex h.f ++ wordHex h.g ++ wordHex h.h)

/-! ## Data model (`src/certifai/models.py`) -/

/-- `ScrutinyLevel` enumeration (`models.py`). -/
inductive ScrutinyLevel where
  | auto
  | low
  | medium
  | high
deriving DecidableEq

/-- The `.value` string of a scrutiny level. -/
def ScrutinyLevel.value : ScrutinyLevel → String
  | .auto => "auto"
  | .low => "low"
  | .medium => "medium"
  | .high => "high"

/-- `ScrutinyLevel.from_string` (`models.py`): strip, lower-case and
compare against the four recognized level values. -/
def ScrutinyLevel.from_string : Option String → Option ScrutinyLevel
  | none => none
  | some v =>
    let normalized := strLower (pyStrip v)
    if normalized = "auto" then some .auto
    else if normalized = "low" then some .low
    else if normalized = "medium" then some .medium
    else if normalized = "high" then some .high
    else none

/-- `ReviewerInfo` (`models.py`). -/
structure ReviewerInfo where
  kind : String
  id : String
  scrutiny : Option ScrutinyLevel := none
  notes : Option String := none
  timestamp : Option String := none
deriving DecidableEq

/-- `TagMetadata` (`models.py`), the canonical provenance record
(`ProvenanceMetadata` in the specification). -/
structure TagMetadata where
  ai_composed : Option String := none
  human_certified : Option String := none
  agent_certified : Option String := none
  scrutiny : Option ScrutinyLevel := none
  date : Option String := none
  notes : Option String := none
  history : List String := []
  extras : List String := []
  done : Bool := false
  reviewers : List ReviewerInfo := []
deriving DecidableEq

/-- Python truthiness of an optional string (`None` and `""` are falsy). -/
def optTruthy : Option String → Bool
  | none => false
  | some s => s ≠ ""

/-- `TagMetadata.is_pending_certification` (`models.py`): if reviewer
records exist, pending means no human reviewer with a non-empty id whose
lower-cased id differs from `"pending"`; otherwise fall back to the
legacy `human_certified` field.  (The `done` flag is not consulted.) -/
def is_pending_certification (m : TagMetadata) : Bool :=
  if m.reviewers.isEmpty then
    match m.human_certified with
    | some s => if s ≠ "" && strLower s ≠ "pending" then false else true
    | none => true
  else
    !(m.reviewers.any fun r => r.kind == "human" && r.id != "" && strLower r.id != "pending")

/-- `TagMetadata.agent_ids` (`models.py`). -/
def agent_ids (m : TagMetadata) : List String :=
  let ids := match m.agent_certified with
    | some s => if s ≠ "" then [s] else []
    | none => []
  m.reviewers.foldl
    (fun ids r =>
      if r.kind == "agent" && r.id != "" && !(ids.contains r.id) then ids ++ [r.id]
      else ids)
    ids

/-- `TagMetadata.add_reviewer` (`models.py`): drop any prior record with
the same `(kind, id)`, append the new one, and mirror the id into the
legacy `human_certified` / `agent_certified` field. -/
def add_reviewer (m : TagMetadata) (r : ReviewerInfo) : TagMetadata :=
  let existing := m.reviewers.filter fun e => !(e.kind == r.kind && e.id == r.id)
  let m := { m with reviewers := existing ++ [r] }
  if r.kind == "human" then { m with human_certified := some r.id }
  else if r.kind == "agent" then { m with agent_certified := some r.id }
  else m

/-! ## Python literal values

`PyValue` models the values a decorator keyword argument can carry:
string / boolean constants, `None`, list displays and dict displays
(the shapes `format_metadata_decorator` writes and `_literal_value`
reads back). -/

inductive PyValue where
  | noneV : PyValue
  | str : String → PyValue
  | bool : Bool → PyValue
  | list : List PyValue → PyValue
  | dict : List (String × PyValue) → PyValue

/-- Python truthiness of a `PyValue`. -/
def PyValue.truthy : PyValue → Bool
  | .noneV => false
  | .str s => s ≠ ""
  | .bool b => b
  | .list xs => !xs.isEmpty
  | .dict xs => !xs.isEmpty

mutual
/-- Python `repr` of a value (the fall-through branch of
`_format_value`); strings are modelled as single-quoted without
escaping, which matches `repr` on the quote-free strings the tool
writes. -/
def pyRepr : PyValue → String
  | .noneV => "None"
  | .str s => "'" ++ s ++ "'"
  | .bool b => if b then "True" else "False"
  | .list xs => "[" ++ pyJoin ", " (pyReprList xs) ++ "]"
  | .dict xs => "\x7b" ++ pyJoin ", " (pyReprDict xs) ++ "\x7d"

def pyReprList : List PyValue → List String
  | [] => []
  | x :: rest => pyRepr x :: pyReprList rest

def pyReprDict : List (String × PyValue) → List String
  | [] => []
  | (k, v) :: rest => ("'" ++ k ++ "': " ++ pyRepr v) :: pyReprDict rest
end

/-- Python `str()` of a value. -/
def pyStr : PyValue → String
  | .str s => s
  | .bool b => if b then "True" else "False"
  | .noneV => "None"
  | v => pyRepr v

/-- Look a keyword up in a keyword list (`dict.get(name)`; a missing
keyword yields Python `None`). -/
def getKw (kwargs : List (String × PyValue)) (name : String) : PyValue :=
  match kwargs.find? (fun p => p.1 == name) with
  | some p => p.2
  | none => .noneV

/-- `dict.get(key, default)` on a dict value's entries. -/
def dictGet (entries : List (String × PyValue)) (key : String) (dflt : PyValue) : PyValue :=
  match entries.find? (fun p => p.1 == key) with
  | some p => p.2
  | none => dflt

/-! ## Decoding (`decorators.metadata_from_decorator`,
`models.TagMetadata.from_decorator_kwargs`) -/

mutual
/-- `_literal_value` (`decorators.py`): constants and list/tuple
displays are read back; every other expression (in particular a dict
display) becomes `None`. -/
def literal_value : PyValue → PyValue
  | .noneV => .noneV
  | .str s => .str s
  | .bool b => .bool b
  | .list xs => .list (literal_value_list xs)
  | .dict _ => .noneV

/-- Pointwise `_literal_value` over the elements of a list display. -/
def literal_value_list : List PyValue → List PyValue
  | [] => []
  | x :: rest => literal_value x :: literal_value_list rest
end

/-- `_normalize_sequence` (`decorators.py`). -/
def normalize_sequence : PyValue → Option (List String)
  | .noneV => none
  | .str s => some [s]
  | .list xs => some (xs.filterMap fun v =>
      match v with
      | .noneV => none
      | v => some (pyStr v))
  | _ => none

/-- `_as_optional_str` (`decorators.py`). -/
def as_optional_str : PyValue → Option String
  | .noneV => none
  | .str s => some s
  | v => some (pyStr v)

/-- One parsed entry of the `reviewers=` keyword argument
(`from_decorator_kwargs`, `models.py`). -/
def parseReviewer (v : PyValue) : Option ReviewerInfo :=
  match v with
  | .dict entries =>
    let kind := strLower (pyStr (dictGet entries "kind" (.str "human")))
    let reviewer_id := pyStrip (pyStr (dictGet entries "id" (.str "")))
    if reviewer_id = "" then none
    else
      let scrutiny_level :=
        match dictGet entries "scrutiny" .noneV with
        | .str s => ScrutinyLevel.from_string (some s)
        | _ => none
      let notes :=
        match dictGet entries "notes" .noneV with
        | .noneV => none
        | v => some (pyStr v)
      let timestamp :=
        match dictGet entries "timestamp" .noneV with
        | .noneV => none
        | v => some (pyStr v)
      some ⟨kind, reviewer_id, scrutiny_level, notes, timestamp⟩
  | _ => none

/-- `TagMetadata.from_decorator_kwargs` (`models.py`).  The `scrutiny`
parameter may be a level or a string (`Sum`), `done` may be any literal
value, `reviewers` a sequence of literal values. -/
def from_decorator_kwargs
    (ai_composed : Option String)
    (human_certified : Option String)
    (agent_certified : Option String)
    (scrutiny : Option (Sum ScrutinyLevel String))
    (date : Option String)
    (notes : Option String)
    (history : Option (List String))
    (extras : Option (List String))
    (done : PyValue)
    (reviewers : Option (List PyValue))
    (agents : Option (List String)) : TagMetadata :=
  let metadata : TagMetadata := {}
  let metadata := { metadata with ai_composed := ai_composed }
  let metadata := { metadata with
    human_certified :=
      if optTruthy human_certified then human_certified
      else if human_certified = some "" then some "pending"
      else human_certified }
  let metadata := { metadata with agent_certified := agent_certified }
  let metadata := { metadata with
    scrutiny :=
      match scrutiny with
      | some (.inl level) => some level
      | some (.inr s) => ScrutinyLevel.from_string (some s)
      | none => none }
  let metadata := { metadata with date := date, notes := notes }
  let metadata := { metadata with
    history := match history with
      | some l => if l.isEmpty then metadata.history else l
      | none => metadata.history }
  let metadata := { metadata with
    extras := match extras with
      | some l => if l.isEmpty then metadata.extras else l
      | none => metadata.extras }
  let metadata := { metadata with
    done := match done with
      | .bool b => b
      | .str s => strLower (pyStrip s) == "true" || strLower (pyStrip s) == "1" ||
                  strLower (pyStrip s) == "yes"
      | _ => metadata.done }
  let metadata := { metadata with
    reviewers := match reviewers with
      | some entries => if entries.isEmpty then metadata.reviewers
                        else entries.filterMap parseReviewer
      | none => metadata.reviewers }
  let metadata := { metadata with
    reviewers := match agents with
      | some ids =>
        metadata.reviewers ++ (ids.filterMap fun agent_id =>
          if agent_id = "" then none
          else some ⟨"agent", agent_id, none, none, none⟩)
      | none => metadata.reviewers }
  metadata

/-- `metadata_from_decorator` (`decorators.py`): collect the keyword
arguments of the decorator call through `_literal_value`, then hand the
seven recognized names to `from_decorator_kwargs`.  `agent_certified`,
`done`, `reviewers` and `agents` keywords are not passed on. -/
def metadata_from_decorator (keywords : List (String × PyValue)) : TagMetadata :=
  let kwargs := keywords.map fun p => (p.1, literal_value p.2)
  let history := normalize_sequence (getKw kwargs "history")
  let extras := normalize_sequence (getKw kwargs "extras")
  let scrutiny_value : Option (Sum ScrutinyLevel String) :=
    match getKw kwargs "scrutiny" with
    | .str s => some (.inr s)
    | _ => none
  from_decorator_kwargs
    (as_optional_str (getKw kwargs "ai_composed"))
    (as_optional_str (getKw kwargs "human_certified"))
    none
    scrutiny_value
    (as_optional_str (getKw kwargs "date"))
    (as_optional_str (getKw kwargs "notes"))
    history
    extras
    .noneV
    none
    none

/-! ## Encoding (`models.TagMetadata.to_decorator_payload`,
`decorators.format_metadata_decorator`) -/

/-- The dict written for one reviewer record in
`to_decorator_payload` (`models.py`). -/
def reviewerPayload (r : ReviewerInfo) : PyValue :=
  .dict
    [("kind", .str r.kind),
     ("id", .str r.id),
     ("scrutiny", match r.scrutiny with | some l => .str l.value | none => .noneV),
     ("notes", match r.notes with | some s => .str s | none => .noneV),
     ("timestamp", match r.timestamp with | some s => .str s | none => .noneV)]

/-- Helper: a payload entry present only when the field is truthy. -/
def optEntry (name : String) (v : Option String) : List (String × PyValue) :=
  match v with
  | some s => if s ≠ "" then [(name, .str s)] else []
  | none => []

/-- `TagMetadata.to_decorator_payload` (`models.py`): the keyword
arguments (in source order) that the encoder will write. -/
def to_decorator_payload (m : TagMetadata) : List (String × PyValue) :=
  optEntry "ai_composed" m.ai_composed ++
  optEntry "human_certified" m.human_certified ++
  optEntry "agent_certified" m.agent_certified ++
  (match m.scrutiny with | some l => [("scrutiny", .str l.value)] | none => []) ++
  optEntry "date" m.date ++
  optEntry "notes" m.notes ++
  (if m.done then [("done", .bool true)] else []) ++
  (if m.history.isEmpty then [] else [("history", .list (m.history.map .str))]) ++
  (if m.extras.isEmpty then [] else [("extras", .list (m.extras.map .str))]) ++
  (if !m.reviewers.isEmpty then
      [("reviewers", .list (m.reviewers.map reviewerPayload))]
   else if !(agent_ids m).isEmpty then
      [("agents", .list ((agent_ids m).map .str))]
   else [])

/-- The hex digits used by `\u` escapes. -/
def hex4 (n : Nat) : String :=
  String.mk [hexChar (n >>> 12 % 16), hexChar (n >>> 8 % 16),
             hexChar (n >>> 4 % 16), hexChar (n % 16)]

/-- `json.dumps` of one character (default `ensure_ascii=True`). -/
def jsonEscChar (c : Char) : String :=
  if c = '"' then "\\\""
  else if c = '\\' then "\\\\"
  else if c = '\n' then "\\n"
  else if c = '\t' then "\\t"
  else if c = '\r' then "\\r"
  else if c.toNat < 0x20 || c.toNat > 0x7e then "\\u" ++ hex4 c.toNat
  else String.mk [c]

/-- `json.dumps` of a string (basic-plane characters). -/
def jsonDumps (s : String) : String :=
  "\"" ++ String.join (s.data.map jsonEscChar) ++ "\""

mutual
/-- `_format_value` (`decorators.py`): strings are JSON-quoted, lists
are rendered elementwise, `None`/booleans as Python literals, and
anything else (dicts) through `repr`. -/
def format_value : PyValue → String
  | .str s => jsonDumps s
  | .list xs => "[" ++ pyJoin ", " (format_value_list xs) ++ "]"
  | .noneV => "None"
  | .bool b => if b then "True" else "False"
  | .dict xs => pyRepr (.dict xs)

def format_value_list : List PyValue → List String
  | [] => []
  | x :: rest => format_value x :: format_value_list rest
end

/-- `_format_sequence` (`decorators.py`). -/
def format_sequence (name : String) (values : List PyValue) (indent : String) : List String :=
  [indent ++ "    " ++ name ++ "=["] ++
  values.map (fun item => indent ++ "        " ++ format_value item ++ ",") ++
  [indent ++ "    ],"]

/-- The keyword names `format_metadata_decorator` writes in its two
dedicated passes before dumping the remaining payload entries. -/
def formatConsumedKeys : List String :=
  ["ai_composed", "human_certified", "scrutiny", "date", "notes", "history", "extras"]

/-- `format_metadata_decorator` (`decorators.py`): serialize a payload
to decorator source lines. -/
def format_metadata_decorator (m : TagMetadata) (indent : String) : List String :=
  let payload := to_decorator_payload m
  let pre := indent ++ "@certifai"
  if payload.isEmpty then [pre ++ "()"]
  else
    [pre ++ "("] ++
    (["ai_composed", "human_certified", "scrutiny", "date", "notes"].flatMap fun key =>
      match payload.find? (fun p => p.1 == key) with
      | some p => [indent ++ "    " ++ key ++ "=" ++ format_value p.2 ++ ","]
      | none => []) ++
    (["history", "extras"].flatMap fun key =>
      match payload.find? (fun p => p.1 == key) with
      | some (_, .list xs) => format_sequence key xs indent
      | some p => format_sequence key [p.2] indent
      | none => []) ++
    ((payload.filter fun p => !(formatConsumedKeys.contains p.1)).map fun p =>
      indent ++ "    " ++ p.1 ++ "=" ++ format_value p.2 ++ ",") ++
    [indent ++ ")"]

/-! ## Artifacts (`models.py`) -/

/-- `DecoratorBlock` (`models.py`): the line span (1-based, inclusive)
and raw lines of an existing provenance decorator. -/
structure DecoratorBlock where
  start_line : Nat
  end_line : Nat
  lines : List String
deriving DecidableEq

/-- `CodeArtifact` (`models.py`).  `filepath` is the path string;
`lineno` is the `def`/`class` line, `start_line` the first decorator
line when decorators exist (the annotation anchor). -/
structure CodeArtifact where
  name : String
  artifact_type : String
  filepath : String
  lineno : Nat
  end_lineno : Option Nat
  start_line : Nat
  tags : TagMetadata
  indent : String
  decorator : Option DecoratorBlock
deriving DecidableEq

/-! ## Text mutator (`src/certifai/metadata.py`)

The file content is the list of its newline-free lines; the three
helpers below are the pure cores of `update_metadata_blocks`,
`remove_metadata_blocks` and `insert_metadata_block` (the read /
write-back of the file around them is threaded explicitly by their
callers). -/

/-- Python `lines[start_idx:end_idx] = new` for `0 ≤ start_idx`. -/
def spliceLines (lines : List String) (start_idx end_idx : Nat) (new : List String) :
    List String :=
  lines.take start_idx ++ new ++ lines.drop end_idx

/-- One `(artifact, metadata)` update. -/
abbrev MetadataUpdate := CodeArtifact × TagMetadata

/-- Stable insertion for a descending sort by a numeric key: the new
element goes before the first element with a key not above its own. -/
def insertDescBy (key : α → Nat) (x : α) : List α → List α
  | [] => [x]
  | y :: ys => if key y ≤ key x then x :: y :: ys else y :: insertDescBy key x ys

/-- `sorted(xs, key=key, reverse=True)`: stable descending sort
(equal keys keep their original relative order), as a structurally
recursive insertion sort. -/
def sortDescBy (key : α → Nat) : List α → List α
  | [] => []
  | x :: xs => insertDescBy key x (sortDescBy key xs)

/-- `sorted(updates, key=lambda item: item[0].start_line, reverse=True)`. -/
def sortUpdatesDesc (updates : List MetadataUpdate) : List MetadataUpdate :=
  sortDescBy (fun u => u.1.start_line) updates

/-- `update_metadata_blocks` (`metadata.py`): replace each artifact's
existing decorator block by the freshly serialized metadata, applying
edits bottom-up; artifacts without a decorator are skipped.  Returns the
new lines and the `changed` flag (the file is written only when it is
`true`). -/
def update_metadata_blocks (updates : List MetadataUpdate) (lines : List String) :
    List String × Bool :=
  if updates.isEmpty then (lines, false)
  else
    (sortUpdatesDesc updates).foldl
      (fun (st : List String × Bool) u =>
        match u.1.decorator with
        | none => st
        | some blk =>
          (spliceLines st.1 (blk.start_line - 1) blk.end_line
            (format_metadata_decorator u.2 u.1.indent), true))
      (lines, false)

/-- `remove_metadata_blocks` (`metadata.py`): delete each artifact's
decorator block outright (bottom-up), used at Stage 3 cleanup. -/
def remove_metadata_blocks (artifacts : List CodeArtifact) (lines : List String) :
    List String × Bool :=
  if artifacts.isEmpty then (lines, false)
  else
    (sortDescBy (fun a => a.start_line) artifacts).foldl
      (fun (st : List String × Bool) a =>
        match a.decorator with
        | none => st
        | some blk => (spliceLines st.1 (blk.start_line - 1) blk.end_line [], true))
      (lines, false)

/-- `insert_metadata_block` (`metadata.py`): insert a serialized block
at the artifact's anchor line. -/
def insert_metadata_block (artifact : CodeArtifact) (metadata : TagMetadata)
    (lines : List String) : List String × Bool :=
  let decorator_lines := format_metadata_decorator metadata artifact.indent
  if decorator_lines.isEmpty then (lines, false)
  else
    (lines.take (artifact.start_line - 1) ++ decorator_lines ++
       lines.drop (artifact.start_line - 1), true)

/-! ## Digest engine (`src/certifai/digest.py`, `history.py`) -/

/-- Is the character one of the `[ \t]` indentation characters that
`textwrap.dedent` considers? -/
def indentChar (c : Char) : Bool := c = ' ' || c = '\t'

/-- A line consisting solely of `[ \t]` (and nonempty): normalized to
the empty line by `textwrap.dedent`. -/
def wsOnly (l : String) : Bool := l ≠ "" && l.data.all indentChar

/-- The leading `[ \t]*` run of a line. -/
def leadingIndent (l : String) : String := String.mk (l.data.takeWhile indentChar)

/-- Longest common prefix of two character lists. -/
def lcpChars : List Char → List Char → List Char
  | x :: xs, y :: ys => if x = y then x :: lcpChars xs ys else []
  | _, _ => []

/-- Longest common prefix of two strings. -/
def lcpStr (a b : String) : String := String.mk (lcpChars a.data b.data)

/-- `textwrap.dedent`, on the lines of the text: whitespace-only lines
are blanked; the margin is the longest common leading-whitespace prefix
of the remaining non-blank lines and is removed from every line that
starts with it. -/
def dedentLines (ls : List String) : List String :=
  let blanked := ls.map fun l => if wsOnly l then "" else l
  let indents := blanked.filterMap fun l =>
    if l.data.any (fun c => !indentChar c) then some (leadingIndent l) else none
  let margin := match indents with
    | [] => ""
    | i :: rest => rest.foldl lcpStr i
  if margin = "" then blanked
  else blanked.map fun l =>
    if margin.isPrefixOf l then String.mk (l.data.drop margin.length) else l

/-- `_artifact_source` (`digest.py`): extract the line span from
`start_line` through `max(end_lineno or lineno, lineno)` (clamped to the
file), dedent it and strip surrounding whitespace. -/
def artifact_source (artifact : CodeArtifact) (lines : List String) : String :=
  let start_index := artifact.start_line - 1
  let end_line := match artifact.end_lineno with
    | some e => if e = 0 then artifact.lineno else e
    | none => artifact.lineno
  let stop := min lines.length (max end_line artifact.lineno)
  let snippet := (lines.take stop).drop start_index
  pyStrip (pyJoin "\n" (dedentLines snippet))

/-- `compute_artifact_digest` (`digest.py`).  `pd` is the external
structural parser: `pd s = some dump` models
`ast.dump(ast.parse(s), include_attributes=False)` and `none` a
`SyntaxError`. -/
def compute_artifact_digest (pd : String → Option String) (artifact : CodeArtifact)
    (lines : List String) : String :=
  let snippet := artifact_source artifact lines
  if snippet = "" then sha256Hex (utf8Bytes "")
  else
    match pd snippet with
    | some normalised => sha256Hex (utf8Bytes normalised)
    | none => sha256Hex (utf8Bytes snippet)

/-- `compute_digest` (`history.py`): SHA-1 over the pipe-joined
projection of the provenance fields, excluding `history`, `done`,
`agent_certified` and `reviewers`. -/
def compute_digest (metadata : TagMetadata) : String :=
  let parts : List String :=
    [metadata.ai_composed.getD "",
     metadata.human_certified.getD "",
     (match metadata.scrutiny with | some l => l.value | none => ""),
     metadata.date.getD "",
     metadata.notes.getD "",
     pyJoin "\n" metadata.extras]
  sha1Hex (utf8Bytes (pyJoin "|" parts))

/-- Is the character matched by the regex class `[0-9a-f]`? -/
def hexLower (c : Char) : Bool :=
  ('0' ≤ c && c ≤ '9') || ('a' ≤ c && c ≤ 'f')

/-- The literal characters of `"digest="`. -/
def digestMarker : List Char := "digest=".data

/-- Attempted match of `digest=([0-9a-f]\x7b40\x7d)` at one position. -/
def digestMatchAt (cs : List Char) : Option (List Char) :=
  if digestMarker.isPrefixOf cs then
    let cand := (cs.drop 7).take 40
    if cand.length = 40 && cand.all hexLower then some cand else none
  else none

/-- `re.search` of `_DIGEST_PATTERN` (`history.py`): leftmost match of
`digest=` followed by exactly forty lowercase hex digits. -/
def searchDigest : List Char → Option (List Char)
  | [] => none
  | c :: rest =>
    match digestMatchAt (c :: rest) with
    | some cand => some cand
    | none => searchDigest rest

/-- `extract_digest` (`history.py`): `None` and the empty entry give
`None`; otherwise the regex capture group. -/
def extract_digest : Option String → Option String
  | none => none
  | some entry =>
    if entry = "" then none
    else (searchDigest entry.data).map String.mk

/-- One `git` blame result (`describe_line`, `utils/git.py`),
as consumed by `build_history_entry`. -/
structure CommitInfo where
  commit : String
  author : String

/-- The trailing `last_commit=` segment of a history entry
(`history.py`): the blame result when `describe_line` finds one,
otherwise the `uncommitted` / `unknown` sentinel from the `get_repo` /
`is_dirty` fallback (`none` models the absence of a repository). -/
def commit_segment (commit_info : Option CommitInfo) (repoDirty : Option Bool) : String :=
  match commit_info with
  | some info => "last_commit=" ++ String.mk (info.commit.data.take 7) ++
                 " by " ++ info.author
  | none =>
    match repoDirty with
    | some true => "last_commit=uncommitted"
    | _ => "last_commit=unknown"

/-- `build_history_entry` (`history.py`).  The timestamp is the
ISO-8601 rendering of the supplied datetime; `commit_info` and
`repoDirty` carry the external `git` lookups for the artifact's file
and line. -/
def build_history_entry (artifact : CodeArtifact) (metadata : TagMetadata)
    (timestamp : String) (action : Option String)
    (commit_info : Option CommitInfo) (repoDirty : Option Bool) : String :=
  let digest := compute_digest metadata
  let segments := [timestamp, "digest=" ++ digest]
  let segments := segments ++ (match action with | some a => [a] | none => [])
  let segments := segments ++ [commit_segment commit_info repoDirty]
  let _ := artifact.filepath
  pyJoin " " segments

/-! ## Registry store (`src/certifai/registry.py`) -/

/-- One reviewer dict as written into a registry entry
(`from_artifact_full` builds dicts with exactly these five keys). -/
structure ReviewerPayload where
  kind : String
  id : String
  scrutiny : Option String
  notes : Option String
  timestamp : Option String
deriving DecidableEq

/-- One lifecycle event dict (`{"event": ..., "timestamp": ...}` plus
the optional keys each call site adds). -/
structure LifecycleEvent where
  event : String
  timestamp : String
  digest : Option String := none
  reason : Option String := none
  old_digest : Option String := none
  new_digest : Option String := none
deriving DecidableEq

/-- `RegistryEntry` (`registry.py`). -/
structure RegistryEntry where
  filepath : String
  qualified_name : String
  digest : String
  human_certified : String
  scrutiny : Option String
  ai_composed : Option String
  finalized_at : String
  date : Option String := none
  notes : Option String := none
  history : List String := []
  reviewers : List ReviewerPayload := []
  lifecycle_history : List LifecycleEvent := []
deriving DecidableEq

/-- `RegistryEntry.from_artifact_full` (`registry.py`); `ts` is the
ISO rendering of the timestamp argument (or of `datetime.now`). -/
def RegistryEntry.from_artifact_full (artifact : CodeArtifact) (metadata : TagMetadata)
    (digest : String) (ts : String) (include_reviewers : Bool) : RegistryEntry :=
  let reviewers_data :=
    if include_reviewers && !metadata.reviewers.isEmpty then
      metadata.reviewers.map fun r =>
        ⟨r.kind, r.id,
         (match r.scrutiny with | some l => some l.value | none => none),
         r.notes, r.timestamp⟩
    else []
  { filepath := artifact.filepath
    qualified_name := artifact.name
    digest := digest
    human_certified := metadata.human_certified.getD ""
    scrutiny := match metadata.scrutiny with | some l => some l.value | none => none
    ai_composed := metadata.ai_composed
    finalized_at := ts
    date := metadata.date
    notes := metadata.notes
    history := metadata.history
    reviewers := reviewers_data
    lifecycle_history := [{ event := "finalized", timestamp := ts, digest := some digest }] }

/-- `RegistryEntry.from_artifact` (`registry.py`): delegates to
`from_artifact_full` with `include_reviewers=False`. -/
def RegistryEntry.from_artifact (artifact : CodeArtifact) (metadata : TagMetadata)
    (digest : String) (ts : String) : RegistryEntry :=
  RegistryEntry.from_artifact_full artifact metadata digest ts false

/-- One archive record appended to the registry's `history` list. -/
structure ArchiveRecord where
  filepath : String
  qualified_name : String
  archived_at : String
  reason : String
  old_digest : Option String
  new_digest : Option String
  entry : RegistryEntry
deriving DecidableEq

/-- `RegistryStore` (`registry.py`): the active map (insertion-ordered,
unique keys, as a Python dict) plus the archive history. -/
structure RegistryStore where
  entries : List ((String × String) × RegistryEntry) := []
  history : List ArchiveRecord := []
deriving DecidableEq

/-- `registry[key] = entry` (dict assignment: overwrite in place or
append). -/
def storeSet (es : List ((String × String) × RegistryEntry)) (k : String × String)
    (v : RegistryEntry) : List ((String × String) × RegistryEntry) :=
  if es.any (fun p => p.1 == k) then es.map fun p => if p.1 == k then (k, v) else p
  else es ++ [(k, v)]

/-- `registry.pop(key, None)`. -/
def storePop (es : List ((String × String) × RegistryEntry)) (k : String × String) :
    List ((String × String) × RegistryEntry) :=
  es.filter fun p => !(p.1 == k)

/-- `registry.get(key)`. -/
def storeFind (es : List ((String × String) × RegistryEntry)) (k : String × String) :
    Option RegistryEntry :=
  (es.find? fun p => p.1 == k).map Prod.snd

/-- `registry_key` (`registry.py`). -/
def registry_key (artifact : CodeArtifact) : String × String :=
  (artifact.filepath, artifact.name)

/-- `append_lifecycle_event` (`registry.py`), as a pure update of the
entry. -/
def append_lifecycle_event (entry : RegistryEntry) (event : String) (ts : String)
    (reason : Option String) (old_digest : Option String)
    (new_digest : Option String) : RegistryEntry :=
  { entry with lifecycle_history := entry.lifecycle_history ++
      [{ event := event, timestamp := ts, reason := reason,
         old_digest := old_digest, new_digest := new_digest }] }

/-- `update_registry` (`registry.py`). -/
def update_registry (registry : RegistryStore)
    (artifacts : List (CodeArtifact × RegistryEntry)) : RegistryStore :=
  artifacts.foldl
    (fun reg p => { reg with entries := storeSet reg.entries (registry_key p.1) p.2 })
    registry

/-- `archive_registry_entry` (`registry.py`): append the `reopened`
lifecycle event to the entry, then append the archive record (holding a
snapshot of the updated entry) to the registry history. -/
def archive_registry_entry (registry : RegistryStore) (entry : RegistryEntry)
    (reason : String) (old_digest new_digest : Option String) (ts : String) :
    RegistryStore :=
  let entry := append_lifecycle_event entry "reopened" ts reason old_digest new_digest
  { registry with history := registry.history ++
      [{ filepath := entry.filepath, qualified_name := entry.qualified_name,
         archived_at := ts, reason := reason, old_digest := old_digest,
         new_digest := new_digest, entry := entry }] }

/-! ## Finalize (`src/certifai/finalize.py`) -/

/-- `_finalizable` (`finalize.py`). -/
def finalizable (artifact : CodeArtifact) : Bool :=
  if artifact.tags.done then false
  else if !optTruthy artifact.tags.human_certified ||
          strLower (artifact.tags.human_certified.getD "") == "pending" then false
  else true

/-- `_finalized_metadata` (`finalize.py`): mark done, trim notes and
history, default the date to `now`. -/
def finalized_metadata (original : TagMetadata) (now : String) : TagMetadata :=
  { original with
    done := true
    notes := none
    history := []
    date := if optTruthy original.date then original.date else some now }

/-- The per-file body of `finalize` (`finalize.py`): the scanner's
output `artifacts` for the file's `lines` is taken as input; returns the
rewritten lines, the updated registry, and the artifacts reported as
finalized. -/
def finalize_file (pd : String → Option String) (artifacts : List CodeArtifact)
    (lines : List String) (registry : RegistryStore) (now : String) :
    List String × RegistryStore × List CodeArtifact :=
  let selected := artifacts.filter finalizable
  let registry_updates := selected.map fun artifact =>
    (artifact, RegistryEntry.from_artifact artifact artifact.tags
      (compute_artifact_digest pd artifact lines) now)
  let updates : List MetadataUpdate := selected.map fun artifact =>
    (artifact, finalized_metadata artifact.tags now)
  if updates.isEmpty then (lines, registry, [])
  else
    let (new_lines, changed) := update_metadata_blocks updates lines
    if changed then (new_lines, update_registry registry registry_updates,
                     updates.map Prod.fst)
    else (lines, registry, [])

/-! ## Reconciliation (`src/certifai/checks.py`) -/

/-- `_metadata_from_entry` (`checks.py`): the minimal Stage-1 record
written back on reopen. -/
def metadata_from_entry (entry : RegistryEntry) : TagMetadata :=
  { ai_composed := entry.ai_composed, reviewers := [] }

/-- One audit notification (`record_reopening`, `audit.py`). -/
structure AuditEvent where
  artifact : String
  reason : String
  old_digest : String
  new_digest : String
deriving DecidableEq

/-- The file system and reconciliation state threaded through one pass:
the files (path ↦ lines, missing path = missing file), the registry, the
set of written file paths and the emitted audit events. -/
structure ReconcileState where
  fs : List (String × List String)
  registry : RegistryStore
  updated : List String
  audit : List AuditEvent
deriving DecidableEq

/-- `files.get(path)`. -/
def fsFind (fs : List (String × List String)) (path : String) : Option (List String) :=
  (fs.find? fun p => p.1 == path).map Prod.snd

/-- `files[path] = lines`. -/
def fsSet (fs : List (String × List String)) (path : String) (lines : List String) :
    List (String × List String) :=
  if fs.any (fun p => p.1 == path) then fs.map fun p => if p.1 == path then (path, lines) else p
  else fs ++ [(path, lines)]

/-- `artifact_map[qualified_name]` (`checks.py`): the dict comprehension
keeps the last artifact with each name. -/
def artifactByName (artifacts : List CodeArtifact) (qualified_name : String) :
    Option CodeArtifact :=
  artifacts.reverse.find? fun a => a.name == qualified_name

/-- The write-back used by `reconcile_registry` when drift is detected:
replace the existing block via `update_metadata_blocks` or, when the
artifact carries no block, insert a fresh one. -/
def reopen_write_back (artifact : CodeArtifact) (metadata : TagMetadata)
    (lines : List String) : List String × Bool :=
  let (updated, changed) := update_metadata_blocks [(artifact, metadata)] lines
  if changed then (updated, true)
  else insert_metadata_block artifact metadata lines

/-- The loop body of `reconcile_registry` (`checks.py`) for one active
`(key, entry)` pair.  `scanner` stands for `parse_file` on the current
file content and `pd` for the structural parser used by the digest. -/
def reconcile_entry (pd : String → Option String)
    (scanner : List String → List CodeArtifact) (now : String)
    (st : ReconcileState) (key : String × String) (entry : RegistryEntry) :
    ReconcileState :=
  match fsFind st.fs key.1 with
  | none => { st with registry := { st.registry with entries := storePop st.registry.entries key } }
  | some lines =>
    match artifactByName (scanner lines) key.2 with
    | none => { st with registry := { st.registry with entries := storePop st.registry.entries key } }
    | some artifact =>
      let digest := compute_artifact_digest pd artifact lines
      if digest == entry.digest then st
      else
        let metadata := metadata_from_entry entry
        let (new_lines, changed) := reopen_write_back artifact metadata lines
        if changed then
          let registry := archive_registry_entry st.registry entry "code_changed"
            (some entry.digest) (some digest) now
          { fs := fsSet st.fs key.1 new_lines
            registry := { registry with entries := storePop registry.entries key }
            updated := if st.updated.contains key.1 then st.updated else st.updated ++ [key.1]
            audit := st.audit ++ [⟨key.2, "digest_mismatch", entry.digest, digest⟩] }
        else st

/-- One full reconciliation pass (`reconcile_registry`, `checks.py`):
fold the loop body over the snapshot of the active entries. -/
def reconcile_pass (pd : String → Option String)
    (scanner : List String → List CodeArtifact) (now : String)
    (fs : List (String × List String)) (registry : RegistryStore) : ReconcileState :=
  registry.entries.foldl
    (fun st p => reconcile_entry pd scanner now st p.1 p.2)
    ⟨fs, registry, [], []⟩

/-! ## Certification (`src/certifai/certify.py`) -/

/-- The `git` environment consumed by `build_history_entry` call sites:
per-(file, line) blame results and the per-file repository dirty
state. -/
structure GitEnv where
  describe : String → Nat → Option CommitInfo
  repoDirty : String → Option Bool

/-- `_rewrite_metadata_human` (`certify.py`), per file: build the
updated metadata for every eligible artifact (skipping those without a
decorator block) and apply the mutator. -/
def rewrite_metadata_human (git : GitEnv) (ts : String) (lines : List String)
    (artifacts : List CodeArtifact) (reviewer : String) (scrutiny : ScrutinyLevel)
    (notes : Option String) : List String × Bool :=
  let updates_payload : List MetadataUpdate := artifacts.filterMap fun artifact =>
    match artifact.decorator with
    | none => none
    | some _ =>
      let metadata := artifact.tags
      let metadata := { metadata with done := false }
      let metadata := add_reviewer metadata
        ⟨"human", reviewer, some scrutiny, notes, some ts⟩
      let metadata := { metadata with
        human_certified := some reviewer
        scrutiny := some scrutiny
        date := some ts }
      let metadata := if optTruthy notes then { metadata with notes := notes } else metadata
      let metadata := { metadata with done := false }
      let metadata := { metadata with
        history := [build_history_entry artifact metadata ts
          (some ("certified by " ++ reviewer ++ " (" ++ scrutiny.value ++ ")"))
          (git.describe artifact.filepath artifact.lineno)
          (git.repoDirty artifact.filepath)] }
      some (artifact, metadata)
  if updates_payload.isEmpty then (lines, false)
  else update_metadata_blocks updates_payload lines

/-- The refreshed-artifact lookup both certify loops perform after a
successful write (`certify.py`). -/
def refreshedLookup (refreshed : List CodeArtifact) (targets : List CodeArtifact) :
    List CodeArtifact :=
  targets.filterMap fun artifact =>
    match refreshed.reverse.find? fun r => r.name == artifact.name &&
        r.lineno == artifact.lineno with
    | some r => some r
    | none => refreshed.reverse.find? fun r => r.name == artifact.name

/-- `certify` (`certify.py`) over an explicit file system: the scrutiny
string is validated before any file content is touched; an unrecognized
level aborts the whole call with `ValueError` and leaves every file
unchanged. -/
def certify (scanner : List String → List CodeArtifact) (git : GitEnv) (ts : String)
    (files : List (String × List String)) (reviewer : String) (scrutiny : String)
    (notes : Option String) (include_existing : Bool) :
    List (String × List String) × Except String (List CodeArtifact) :=
  match ScrutinyLevel.from_string (some scrutiny) with
  | none => (files, .error ("Unsupported scrutiny level: " ++ scrutiny))
  | some level =>
    let step := fun (acc : List (String × List String) × List CodeArtifact)
        (file : String × List String) =>
      let artifacts := scanner file.2
      let updates := artifacts.filter fun a =>
        include_existing || is_pending_certification a.tags
      if updates.isEmpty then (acc.1 ++ [file], acc.2)
      else
        let (new_lines, changed) :=
          rewrite_metadata_human git ts file.2 updates reviewer level notes
        if changed then
          (acc.1 ++ [(file.1, new_lines)],
           acc.2 ++ refreshedLookup (scanner new_lines) updates)
        else (acc.1 ++ [file], acc.2)
    let result := files.foldl step ([], [])
    (result.1, .ok result.2)

/-- The per-artifact metadata update of `certify_agent` (`certify.py`):
append an agent reviewer record directly (without `add_reviewer`) and
restamp the history. -/
def agent_updated_metadata (git : GitEnv) (ts : String) (artifact : CodeArtifact)
    (agent_id : String) (level : ScrutinyLevel) (notes : Option String) : TagMetadata :=
  let metadata := artifact.tags
  let metadata := { metadata with
    agent_certified := some agent_id
    scrutiny := some level
    date := some ts }
  let metadata := if optTruthy notes then { metadata with notes := notes } else metadata
  let metadata := { metadata with done := false }
  let metadata := { metadata with
    reviewers := metadata.reviewers ++
      [(⟨"agent", agent_id, some level, notes, some ts⟩ : ReviewerInfo)] }
  { metadata with
    history := [build_history_entry artifact metadata ts
      (some ("agent " ++ agent_id ++ " certified (" ++ level.value ++ ")"))
      (git.describe artifact.filepath artifact.lineno)
      (git.repoDirty artifact.filepath)] }

/-- `certify_agent` (`certify.py`): same fail-fast scrutiny validation
as `certify`, then the agent update loop. -/
def certify_agent (scanner : List String → List CodeArtifact) (git : GitEnv)
    (ts : String) (files : List (String × List String)) (agent_id : String)
    (scrutiny : String) (notes : Option String) (include_existing : Bool) :
    List (String × List String) × Except String (List CodeArtifact) :=
  match ScrutinyLevel.from_string (some scrutiny) with
  | none => (files, .error ("Unsupported scrutiny level: " ++ scrutiny))
  | some level =>
    let step := fun (acc : List (String × List String) × List CodeArtifact)
        (file : String × List String) =>
      let artifacts := scanner file.2
      let updates := artifacts.filter fun a =>
        include_existing || is_pending_certification a.tags
      if updates.isEmpty then (acc.1 ++ [file], acc.2)
      else
        let updates_payload : List MetadataUpdate := updates.filterMap fun artifact =>
          match artifact.decorator with
          | none => none
          | some _ => some (artifact,
              agent_updated_metadata git ts artifact agent_id level notes)
        if updates_payload.isEmpty then (acc.1 ++ [file], acc.2)
        else
          let (new_lines, changed) := update_metadata_blocks updates_payload file.2
          if changed then
            (acc.1 ++ [(file.1, new_lines)],
             acc.2 ++ refreshedLookup (scanner new_lines) updates)
          else (acc.1 ++ [file], acc.2)
    let result := files.foldl step ([], [])
    (result.1, .ok result.2)

set_option maxRecDepth 4096

/-- Standard test vector: SHA-1 of the empty message. -/
theorem sha1_empty_vector :
    sha1Hex (utf8Bytes "") = "da39a3ee5e6b4b0d3255bfef95601890afd80709" := by decide

/-- Standard test vector: SHA-1 of `"abc"`. -/
theorem sha1_abc_vector :
    sha1Hex (utf8Bytes "abc") = "a9993e364706816aba3e25717850c26c9cd0d89d" := by decide

/-- Standard test vector: SHA-256 of the empty message. -/
theorem sha256_empty_vector :
    sha256Hex (utf8Bytes "") =
      "e3b0c44298fc1c149afbf4c8996fb92427ae41e4649b934ca495991b7852b855" := by decide

/-- Standard test vector: SHA-256 of `"abc"`. -/
theorem sha256_abc_vector :
    sha256Hex (utf8Bytes "abc") =
      "ba7816bf8f01cfea414140de5dae2223b00361a396177a9cb410ff61f20015ad" := by decide

/-! ## Claim C3: the pending-certification invariant -/

/-- The pending predicate exactly as claim C3 states it: `done` is
false and no reviewer record has `kind == "human"` with an id that is
non-empty and different from the sentinel `"pending"`. -/
def pending_per_claim (m : TagMetadata) : Bool :=
  !m.done &&
  !(m.reviewers.any fun r => r.kind == "human" && r.id != "" && r.id != "pending")

/-- Claim C3, counterexample: `is_pending_certification` does not
consult `done` (a finalized record with no reviewers is still reported
pending), falls back to the legacy `human_certified` field when the
reviewer list is empty, and compares reviewer ids case-insensitively
against `"pending"`.  Each of the three concrete records below
separates the code from the claimed equivalence. -/
theorem is_pending_certification_claim_false :
    ¬ (is_pending_certification { done := true } = true ↔
        pending_per_claim { done := true } = true) ∧
    ¬ (is_pending_certification { human_certified := some "PHZ" } = true ↔
        pending_per_claim { human_certified := some "PHZ" } = true) ∧
    ¬ (is_pending_certification
          { reviewers := [⟨"human", "PENDING", none, none, none⟩] } = true ↔
        pending_per_claim
          { reviewers := [⟨"human", "PENDING", none, none, none⟩] } = true) := by
  decide

/-- Claim C3 (amended): `is_pending_certification` is true iff, when
reviewer records exist, no record has `kind = "human"` with a non-empty
id whose lower-cased form differs from `"pending"`; when no reviewer
records exist, the legacy `human_certified` field is absent, empty, or
lower-cases to `"pending"`.  The `done` flag plays no role. -/
theorem is_pending_certification_spec (m : TagMetadata) :
    is_pending_certification m = true ↔
      (match m.reviewers with
       | [] => ¬ ∃ s, m.human_certified = some s ∧ s ≠ "" ∧ strLower s ≠ "pending"
       | _ :: _ =>
          ¬ ∃ r ∈ m.reviewers, r.kind = "human" ∧ r.id ≠ "" ∧ strLower r.id ≠ "pending") := by
  cases hrev : m.reviewers with
  | nil =>
    cases hc : m.human_certified with
    | none => simp [is_pending_certification, hrev, hc]
    | some s =>
      by_cases hs : s ≠ "" ∧ strLower s ≠ "pending"
      · simp [is_pending_certification, hrev, hc, hs.1, hs.2]
      · push_neg at hs
        by_cases he : s = ""
        · simp [is_pending_certification, hrev, hc, he]
        · simp [is_pending_certification, hrev, hc, he, hs he]
  | cons r rest =>
    have hiff : ∀ x : ReviewerInfo,
        (x.kind == "human" && x.id != "" && strLower x.id != "pending") = true ↔
        (x.kind = "human" ∧ x.id ≠ "" ∧ strLower x.id ≠ "pending") := by
      intro x
      simp [Bool.and_eq_true, and_assoc]
    have hred : is_pending_certification m =
        !(m.reviewers.any fun x =>
            x.kind == "human" && x.id != "" && strLower x.id != "pending") := by
      unfold is_pending_certification
      rw [hrev]
      simp
    rw [hred, hrev]
    simp only [Bool.not_eq_true', List.any_eq_false]
    constructor
    · rintro h ⟨x, hx, hP⟩
      exact (h x hx) ((hiff x).2 hP)
    · intro h x hx hP
      exact h ⟨x, hx, (hiff x).1 hP⟩

/-! ## Claim C7: unrecognized keyword arguments -/

/-- The keyword names `metadata_from_decorator` actually reads. -/
def decodeReadNames : List String :=
  ["ai_composed", "human_certified", "scrutiny", "date", "notes", "history", "extras"]

/-- Appending an entry for a fresh name leaves earlier lookups alone,
and a lookup for a different name ignores the appended entry. -/
theorem getKw_append_ne (ks : List (String × PyValue)) (name n : String) (v : PyValue)
    (h : n ≠ name) : getKw (ks ++ [(name, v)]) n = getKw ks n := by
  have hb : (((name, v) : String × PyValue).1 == n) = false := by
    simp [Ne.symm h]
  unfold getKw
  rw [List.find?_append]
  cases hf : ks.find? (fun p => p.1 == n) with
  | some p => simp [hf]
  | none =>
    have hb' : (name == n) = false := hb
    simp [hf, hb']

/-- Mapping `_literal_value` over the keyword values commutes with the
keyword lookup. -/
theorem getKw_map_literal (ks : List (String × PyValue)) (n : String) :
    getKw (ks.map fun p => (p.1, literal_value p.2)) n = literal_value (getKw ks n) := by
  unfold getKw
  rw [List.find?_map]
  have hpred : ((fun (p : String × PyValue) => p.1 == n) ∘
      fun (p : String × PyValue) => (p.1, literal_value p.2)) =
      fun (p : String × PyValue) => p.1 == n := rfl
  rw [hpred]
  cases hf : ks.find? (fun p => p.1 == n) with
  | some p => simp [hf]
  | none => simp [hf, literal_value]

/-- Claim C7, counterexample: a keyword argument with an unrecognized
name is silently dropped by decoding — the decoded record is identical
to the one decoded without the keyword, and in particular its raw
representation does not appear in `extras`. -/
theorem metadata_from_decorator_drops_unknown :
    metadata_from_decorator [("custom_field", .str "x")] = metadata_from_decorator [] ∧
    (metadata_from_decorator [("custom_field", .str "x")]).extras = [] := by
  exact ⟨rfl, rfl⟩

/-- Claim C7 (amended): decoding reads only the seven recognized
keyword names (`ai_composed`, `human_certified`, `scrutiny`, `date`,
`notes`, `history`, `extras`); a keyword argument with any other name is
ignored entirely — appending it leaves the decoded record unchanged
(it is not preserved in `extras`). -/
theorem metadata_from_decorator_ignores_unrecognized
    (ks : List (String × PyValue)) (name : String) (v : PyValue)
    (h : name ∉ decodeReadNames) :
    metadata_from_decorator (ks ++ [(name, v)]) = metadata_from_decorator ks := by
  have hne : ∀ n ∈ decodeReadNames, n ≠ name := by
    intro n hn heq
    exact h (heq ▸ hn)
  have key : ∀ n ∈ decodeReadNames,
      getKw ((ks ++ [(name, v)]).map fun p => (p.1, literal_value p.2)) n =
      getKw (ks.map fun p => (p.1, literal_value p.2)) n := by
    intro n hn
    rw [getKw_map_literal, getKw_map_literal, getKw_append_ne ks name n v (hne n hn)]
  simp only [metadata_from_decorator]
  rw [key "history" (by simp [decodeReadNames]),
      key "extras" (by simp [decodeReadNames]),
      key "scrutiny" (by simp [decodeReadNames]),
      key "ai_composed" (by simp [decodeReadNames]),
      key "human_certified" (by simp [decodeReadNames]),
      key "date" (by simp [decodeReadNames]),
      key "notes" (by simp [decodeReadNames])]

/-- Witness for the amended claim C7 at a concrete keyword list. -/
theorem metadata_from_decorator_ignores_unrecognized_witness :
    "custom_field" ∉ decodeReadNames ∧
    metadata_from_decorator [("notes", .str "n"), ("custom_field", .str "x")] =
      metadata_from_decorator [("notes", .str "n")] :=
  ⟨by decide, metadata_from_decorator_ignores_unrecognized
      [("notes", .str "n")] "custom_field" (.str "x") (by decide)⟩

/-! ## Claim C2: the decode / encode round trip -/

/-- Claim C2, evaluation at the failing input: a record with populated
`agent_certified`, `done` and `reviewers` loses all three on the round
trip — the decoder never passes those keyword arguments on, so
`decode (encode m)` collapses to the empty record. -/
theorem decode_encode_loses_fields :
    (metadata_from_decorator (to_decorator_payload
        { agent_certified := some "bot-1", done := true,
          reviewers := [⟨"human", "Alice", some .high, some "Pair review",
                         some "2025-11-08T12:00:00+00:00"⟩] })).agent_certified = none ∧
    (metadata_from_decorator (to_decorator_payload
        { agent_certified := some "bot-1", done := true,
          reviewers := [⟨"human", "Alice", some .high, some "Pair review",
                         some "2025-11-08T12:00:00+00:00"⟩] })).done = false ∧
    (metadata_from_decorator (to_decorator_payload
        { agent_certified := some "bot-1", done := true,
          reviewers := [⟨"human", "Alice", some .high, some "Pair review",
                         some "2025-11-08T12:00:00+00:00"⟩] })).reviewers = [] ∧
    metadata_from_decorator (to_decorator_payload
        { agent_certified := some "bot-1", done := true,
          reviewers := [⟨"human", "Alice", some .high, some "Pair review",
                         some "2025-11-08T12:00:00+00:00"⟩] }) ≠
      ({ agent_certified := some "bot-1", done := true,
         reviewers := [⟨"human", "Alice", some .high, some "Pair review",
                        some "2025-11-08T12:00:00+00:00"⟩] } : TagMetadata) := by
  refine ⟨rfl, rfl, rfl, ?_⟩
  decide

/-! ## Claim C8: reviewer snapshots at finalize time -/

/-- Claim C8, evaluation at the failing input: finalizing an artifact
whose metadata carries two reviewer records commits a registry entry
whose `reviewers` list is empty (`RegistryEntry.from_artifact` passes
`include_reviewers=False`), while `history` and `notes` are
snapshotted.  The structural-parser oracle is irrelevant to the
asserted fields. -/
theorem finalize_entry_drops_reviewers :
    (storeFind (finalize_file (fun _ => none)
        [{ name := "foo", artifact_type := "function", filepath := "registry.py",
           lineno := 3, end_lineno := some 4, start_line := 1,
           tags := { ai_composed := some "claude-opus", human_certified := some "peter",
                     scrutiny := some .high, notes := some "checked",
                     history := ["2025-11-08T09:00:00Z annotated"],
                     reviewers := [⟨"human", "peter", some .high, some "Validated",
                                    some "2025-11-08T11:30:00Z"⟩,
                                   ⟨"agent", "test-suite", some .medium, none,
                                    some "2025-11-08T10:00:00Z"⟩] },
           indent := "", decorator := some ⟨1, 2, ["@certifai(", ")"]⟩ }]
        ["@certifai(", ")", "def foo():", "    return 1"]
        {} "2025-11-08T12:00:00+00:00").2.1.entries
      ("registry.py", "foo")).map (fun e => (e.reviewers, e.history, e.notes)) =
    some ([], ["2025-11-08T09:00:00Z annotated"], some "checked") := by
  decide

/-! ## Claim C5: the metadata digest projection -/

/-- The digest exactly as claim C5 words it: the SHA-1 hex digest of the
pipe-joined projection `ai_composed | human_certified | scrutiny.value |
date | notes | (extras joined by newline)`, absent scalars contributing
the empty string. -/
def metadata_digest_per_claim (m : TagMetadata) : String :=
  sha1Hex (utf8Bytes
    (m.ai_composed.getD "" ++ "|" ++ m.human_certified.getD "" ++ "|" ++
     (match m.scrutiny with | some l => l.value | none => "") ++ "|" ++
     m.date.getD "" ++ "|" ++ m.notes.getD "" ++ "|" ++ pyJoin "\n" m.extras))

/-- Claim C5: `compute_digest` is the SHA-1 hex digest of the claimed
pipe-joined projection, and two records agreeing on the six projected
fields share a digest — so the digest does not depend on `history`,
`done`, `agent_certified` or `reviewers`. -/
theorem compute_digest_matches_claimed_projection (m m' : TagMetadata)
    (h1 : m'.ai_composed = m.ai_composed)
    (h2 : m'.human_certified = m.human_certified)
    (h3 : m'.scrutiny = m.scrutiny)
    (h4 : m'.date = m.date)
    (h5 : m'.notes = m.notes)
    (h6 : m'.extras = m.extras) :
    compute_digest m = metadata_digest_per_claim m ∧
    compute_digest m' = compute_digest m := by
  constructor
  · show sha1Hex _ = sha1Hex _
    have : pyJoin "|"
        [m.ai_composed.getD "", m.human_certified.getD "",
         (match m.scrutiny with | some l => l.value | none => ""),
         m.date.getD "", m.notes.getD "", pyJoin "\n" m.extras] =
        m.ai_composed.getD "" ++ "|" ++ m.human_certified.getD "" ++ "|" ++
        (match m.scrutiny with | some l => l.value | none => "") ++ "|" ++
        m.date.getD "" ++ "|" ++ m.notes.getD "" ++ "|" ++ pyJoin "\n" m.extras := by
      simp [pyJoin, String.append_assoc]
    rw [this]
  · simp only [compute_digest, h1, h2, h3, h4, h5, h6]

/-- Witness for claim C5: two concrete records differing exactly in
`history`, `done`, `agent_certified` and `reviewers` share the digest,
and the digest agrees with `hashlib.sha1` on the projected string
`"gpt-5|PHZ|auto||No obvious issues found.|"`. -/
theorem compute_digest_matches_claimed_projection_witness :
    (compute_digest
        { ai_composed := some "gpt-5", human_certified := some "PHZ",
          scrutiny := some .auto, notes := some "No obvious issues found.",
          history := ["2025-11-08 digest=0 last_commit=f07d0d9 by phzwart"],
          done := true, agent_certified := some "bot-1",
          reviewers := [⟨"human", "PHZ", some .high, none, none⟩] } =
      metadata_digest_per_claim
        { ai_composed := some "gpt-5", human_certified := some "PHZ",
          scrutiny := some .auto, notes := some "No obvious issues found.",
          history := ["2025-11-08 digest=0 last_commit=f07d0d9 by phzwart"],
          done := true, agent_certified := some "bot-1",
          reviewers := [⟨"human", "PHZ", some .high, none, none⟩] } ∧
     compute_digest
        { ai_composed := some "gpt-5", human_certified := some "PHZ",
          scrutiny := some .auto, notes := some "No obvious issues found." } =
      compute_digest
        { ai_composed := some "gpt-5", human_certified := some "PHZ",
          scrutiny := some .auto, notes := some "No obvious issues found.",
          history := ["2025-11-08 digest=0 last_commit=f07d0d9 by phzwart"],
          done := true, agent_certified := some "bot-1",
          reviewers := [⟨"human", "PHZ", some .high, none, none⟩] }) ∧
    compute_digest
        { ai_composed := some "gpt-5", human_certified := some "PHZ",
          scrutiny := some .auto, notes := some "No obvious issues found." } =
      "0c5d17f4b6f14f29d4f426bad2bcddfcce1deee6" :=
  ⟨compute_digest_matches_claimed_projection _ _ rfl rfl rfl rfl rfl rfl,
   by decide⟩

/-! ## Claim C9: fail-fast scrutiny validation in certify -/

/-- Claim C9: a scrutiny string that does not normalize to one of the
four recognized levels makes both `certify` and `certify_agent` fail
with `ValueError` before touching any file: the file system is returned
unchanged and no artifacts are produced. -/
theorem certify_rejects_unknown_scrutiny
    (scanner : List String → List CodeArtifact) (git : GitEnv) (ts : String)
    (files : List (String × List String)) (reviewer agent_id scrutiny : String)
    (notes : Option String) (include_existing : Bool)
    (h : ScrutinyLevel.from_string (some scrutiny) = none) :
    certify scanner git ts files reviewer scrutiny notes include_existing =
      (files, .error ("Unsupported scrutiny level: " ++ scrutiny)) ∧
    certify_agent scanner git ts files agent_id scrutiny notes include_existing =
      (files, .error ("Unsupported scrutiny level: " ++ scrutiny)) := by
  constructor
  · rw [certify, h]
  · rw [certify_agent, h]

/-- Witness for claim C9 at the unrecognized level `"extreme"`. -/
theorem certify_rejects_unknown_scrutiny_witness :
    ScrutinyLevel.from_string (some "extreme") = none ∧
    certify (fun _ => []) ⟨fun _ _ => none, fun _ => none⟩ "t"
        [("a.py", ["x = 1"])] "PHZ" "extreme" none false =
      ([("a.py", ["x = 1"])], .error "Unsupported scrutiny level: extreme") :=
  ⟨by decide,
   (certify_rejects_unknown_scrutiny (fun _ => []) ⟨fun _ _ => none, fun _ => none⟩
      "t" [("a.py", ["x = 1"])] "PHZ" "bot" "extreme" none false (by decide)).1⟩

/-! ## Claim C1: what finalize does to the in-source block -/

/-- Claim C1, evaluation at the failing input: finalizing a certified
artifact does not delete its annotation block.  `finalize` builds
`(artifact, _finalized_metadata(tags))` pairs and hands them to
`update_metadata_blocks`, so the block is replaced by a trimmed
`done=True` decorator; `remove_metadata_blocks` (deletion, what the
claim describes) is never called.  The registry entry is committed all
the same.  The structural-parser oracle only affects the stored digest
value, which is not asserted here. -/
theorem finalize_keeps_annotation_block :
    "@certifai(" ∈
      (finalize_file (fun _ => none)
        [{ name := "foo", artifact_type := "function", filepath := "sample.py",
           lineno := 5, end_lineno := some 6, start_line := 1,
           tags := metadata_from_decorator
             [("ai_composed", .str "gpt-5"), ("human_certified", .str "PHZ")],
           indent := "",
           decorator := some ⟨1, 4, ["@certifai(", "    ai_composed=\"gpt-5\",",
                                     "    human_certified=\"PHZ\",", ")"]⟩ }]
        ["@certifai(", "    ai_composed=\"gpt-5\",", "    human_certified=\"PHZ\",",
         ")", "def foo():", "    return 1"]
        {} "2025-11-08T12:00:00+00:00").1 ∧
    "    done=True," ∈
      (finalize_file (fun _ => none)
        [{ name := "foo", artifact_type := "function", filepath := "sample.py",
           lineno := 5, end_lineno := some 6, start_line := 1,
           tags := metadata_from_decorator
             [("ai_composed", .str "gpt-5"), ("human_certified", .str "PHZ")],
           indent := "",
           decorator := some ⟨1, 4, ["@certifai(", "    ai_composed=\"gpt-5\",",
                                     "    human_certified=\"PHZ\",", ")"]⟩ }]
        ["@certifai(", "    ai_composed=\"gpt-5\",", "    human_certified=\"PHZ\",",
         ")", "def foo():", "    return 1"]
        {} "2025-11-08T12:00:00+00:00").1 ∧
    (finalize_file (fun _ => none)
        [{ name := "foo", artifact_type := "function", filepath := "sample.py",
           lineno := 5, end_lineno := some 6, start_line := 1,
           tags := metadata_from_decorator
             [("ai_composed", .str "gpt-5"), ("human_certified", .str "PHZ")],
           indent := "",
           decorator := some ⟨1, 4, ["@certifai(", "    ai_composed=\"gpt-5\",",
                                     "    human_certified=\"PHZ\",", ")"]⟩ }]
        ["@certifai(", "    ai_composed=\"gpt-5\",", "    human_certified=\"PHZ\",",
         ")", "def foo():", "    return 1"]
        {} "2025-11-08T12:00:00+00:00").1 ≠
      (remove_metadata_blocks
        [{ name := "foo", artifact_type := "function", filepath := "sample.py",
           lineno := 5, end_lineno := some 6, start_line := 1,
           tags := metadata_from_decorator
             [("ai_composed", .str "gpt-5"), ("human_certified", .str "PHZ")],
           indent := "",
           decorator := some ⟨1, 4, ["@certifai(", "    ai_composed=\"gpt-5\",",
                                     "    human_certified=\"PHZ\",", ")"]⟩ }]
        ["@certifai(", "    ai_composed=\"gpt-5\",", "    human_certified=\"PHZ\",",
         ")", "def foo():", "    return 1"]).1 ∧
    (storeFind (finalize_file (fun _ => none)
        [{ name := "foo", artifact_type := "function", filepath := "sample.py",
           lineno := 5, end_lineno := some 6, start_line := 1,
           tags := metadata_from_decorator
             [("ai_composed", .str "gpt-5"), ("human_certified", .str "PHZ")],
           indent := "",
           decorator := some ⟨1, 4, ["@certifai(", "    ai_composed=\"gpt-5\",",
                                     "    human_certified=\"PHZ\",", ")"]⟩ }]
        ["@certifai(", "    ai_composed=\"gpt-5\",", "    human_certified=\"PHZ\",",
         ")", "def foo():", "    return 1"]
        {} "2025-11-08T12:00:00+00:00").2.1.entries
      ("sample.py", "foo")).isSome := by
  refine ⟨by decide, by decide, by decide, by decide⟩

/-! ## Claim C6: the span the content digest hashes -/

/-- The content digest exactly as claim C6 words it: the text span runs
from `definition_line` (`lineno`) through `max(end_line,
definition_line)`, decorator lines above the definition excluded. -/
def artifact_source_per_claim (artifact : CodeArtifact) (lines : List String) : String :=
  let start_index := artifact.lineno - 1
  let end_line := match artifact.end_lineno with
    | some e => if e = 0 then artifact.lineno else e
    | none => artifact.lineno
  let stop := min lines.length (max end_line artifact.lineno)
  let snippet := (lines.take stop).drop start_index
  pyStrip (pyJoin "\n" (dedentLines snippet))

/-- `compute_artifact_digest` as claim C6 words it (span from the
definition line). -/
def compute_artifact_digest_per_claim (pd : String → Option String)
    (artifact : CodeArtifact) (lines : List String) : String :=
  let snippet := artifact_source_per_claim artifact lines
  if snippet = "" then sha256Hex (utf8Bytes "")
  else
    match pd snippet with
    | some normalised => sha256Hex (utf8Bytes normalised)
    | none => sha256Hex (utf8Bytes snippet)

/-- Claim C6, evaluation at the failing input: the code hashes from the
artifact's `start_line` (the annotation anchor), so decorator lines
above the definition are included in the digest, contradicting the
claimed span from `definition_line`.  The file below is not valid
Python (`def f(:`), so the structural parser raises `SyntaxError` on
both snippets and the raw-text fallback is taken (hence the oracle
`fun _ => none`). -/
theorem artifact_digest_includes_decorator :
    compute_artifact_digest (fun _ => none)
        { name := "f", artifact_type := "function", filepath := "m.py",
          lineno := 3, end_lineno := some 4, start_line := 1,
          tags := {}, indent := "", decorator := some ⟨1, 2, ["@certifai(", ")"]⟩ }
        ["@certifai(", ")", "def f(:", "    pass"] =
      sha256Hex (utf8Bytes "@certifai(\n)\ndef f(:\n    pass") ∧
    compute_artifact_digest_per_claim (fun _ => none)
        { name := "f", artifact_type := "function", filepath := "m.py",
          lineno := 3, end_lineno := some 4, start_line := 1,
          tags := {}, indent := "", decorator := some ⟨1, 2, ["@certifai(", ")"]⟩ }
        ["@certifai(", ")", "def f(:", "    pass"] =
      sha256Hex (utf8Bytes "def f(:\n    pass") ∧
    compute_artifact_digest (fun _ => none)
        { name := "f", artifact_type := "function", filepath := "m.py",
          lineno := 3, end_lineno := some 4, start_line := 1,
          tags := {}, indent := "", decorator := some ⟨1, 2, ["@certifai(", ")"]⟩ }
        ["@certifai(", ")", "def f(:", "    pass"] ≠
      compute_artifact_digest_per_claim (fun _ => none)
        { name := "f", artifact_type := "function", filepath := "m.py",
          lineno := 3, end_lineno := some 4, start_line := 1,
          tags := {}, indent := "", decorator := some ⟨1, 2, ["@certifai(", ")"]⟩ }
        ["@certifai(", ")", "def f(:", "    pass"] := by
  refine ⟨by decide, by decide, by decide⟩

/-! ## Claim C10: a fresh history entry round-trips its digest -/

theorem hexChar_mem (n : Nat) : hexChar n ∈ hexDigits := by
  unfold hexChar
  by_cases h : n < hexDigits.length
  · rw [List.getD_eq_getElem _ _ h]
    exact List.getElem_mem h
  · rw [List.getD_eq_default _ _ (Nat.le_of_not_lt h)]
    decide

theorem hexChar_hexLower (n : Nat) : hexLower (hexChar n) = true :=
  (by decide : ∀ c ∈ hexDigits, hexLower c = true) _ (hexChar_mem n)

theorem wordHex_hexLower (w : Nat) : ∀ c ∈ wordHex w, hexLower c = true := by
  intro c hc
  simp only [wordHex, List.mem_cons, List.not_mem_nil, or_false] at hc
  rcases hc with rfl | rfl | rfl | rfl | rfl | rfl | rfl | rfl <;> exact hexChar_hexLower _

/-- A SHA-1 hex digest always has exactly forty characters. -/
theorem sha1Hex_data_length (msg : List Nat) : (sha1Hex msg).data.length = 40 := by
  show (wordHex (sha1 msg).a ++ wordHex (sha1 msg).b ++ wordHex (sha1 msg).c ++
        wordHex (sha1 msg).d ++ wordHex (sha1 msg).e).length = 40
  simp [wordHex]

/-- Every character of a SHA-1 hex digest is a lowercase hex digit. -/
theorem sha1Hex_data_hexLower (msg : List Nat) :
    ∀ c ∈ (sha1Hex msg).data, hexLower c = true := by
  show ∀ c ∈ wordHex (sha1 msg).a ++ wordHex (sha1 msg).b ++ wordHex (sha1 msg).c ++
        wordHex (sha1 msg).d ++ wordHex (sha1 msg).e, hexLower c = true
  intro c hc
  simp only [List.mem_append] at hc
  rcases hc with (((hc | hc) | hc) | hc) | hc <;> exact wordHex_hexLower _ _ hc

/-- No match of the digest pattern can start on a character other than
`'d'`. -/
theorem digestMatchAt_cons_ne (c : Char) (cs : List Char) (h : c ≠ 'd') :
    digestMatchAt (c :: cs) = none := by
  have hm : digestMarker = 'd' :: "igest=".data := rfl
  have hpre : digestMarker.isPrefixOf (c :: cs) = false := by
    rw [hm]
    simp [List.isPrefixOf, Ne.symm h]
  simp [digestMatchAt, hpre]

/-- The regex search skips any prefix free of the character `'d'`. -/
theorem searchDigest_append (pre l : List Char) (h : ∀ c ∈ pre, c ≠ 'd') :
    searchDigest (pre ++ l) = searchDigest l := by
  induction pre with
  | nil => rfl
  | cons c rest ih =>
    rw [List.cons_append]
    simp only [searchDigest, digestMatchAt_cons_ne c (rest ++ l) (h c (by simp))]
    exact ih fun x hx => h x (by simp [hx])

/-- The regex search succeeds right at the `digest=` marker when the
following forty characters are hex digits. -/
theorem searchDigest_marker (d suffix : List Char) (hlen : d.length = 40)
    (hhex : ∀ c ∈ d, hexLower c = true) :
    searchDigest (digestMarker ++ (d ++ suffix)) = some d := by
  have hpre : digestMarker.isPrefixOf (digestMarker ++ (d ++ suffix)) = true := by
    rw [List.isPrefixOf_iff_prefix]
    exact List.prefix_append _ _
  have hdrop : (digestMarker ++ (d ++ suffix)).drop 7 = d ++ suffix := by
    have h7 : digestMarker.length = 7 := rfl
    rw [← h7, List.drop_left]
  have htake : (d ++ suffix).take 40 = d := by
    rw [← hlen, List.take_left]
  have hcond : (d.length = 40 && d.all hexLower) = true := by
    rw [Bool.and_eq_true]
    exact ⟨by simp [hlen], List.all_eq_true.2 hhex⟩
  have hmatch : digestMatchAt (digestMarker ++ (d ++ suffix)) = some d := by
    unfold digestMatchAt
    rw [if_pos hpre, hdrop, htake, if_pos hcond]
  have hcons : digestMarker ++ (d ++ suffix) = 'd' :: ("igest=".data ++ (d ++ suffix)) := rfl
  rw [hcons] at hmatch ⊢
  simp only [searchDigest, hmatch]

/-- The character lists of three space-joined segments. -/
theorem pyJoin_three_data (x y z : String) :
    (pyJoin " " [x, y, z]).data = x.data ++ ' ' :: (y.data ++ ' ' :: z.data) := by
  show (x ++ " " ++ (y ++ " " ++ z)).data = _
  simp [String.data_append, (show (" " : String).data = [' '] from rfl)]

/-- The character lists of four space-joined segments. -/
theorem pyJoin_four_data (x y z w : String) :
    (pyJoin " " [x, y, z, w]).data =
      x.data ++ ' ' :: (y.data ++ ' ' :: (z.data ++ ' ' :: w.data)) := by
  show (x ++ " " ++ (y ++ " " ++ (z ++ " " ++ w))).data = _
  simp [String.data_append, (show (" " : String).data = [' '] from rfl)]

/-- The characters a `datetime.isoformat()` rendering can contain. -/
def isoChars : List Char := "0123456789-:.+T".data

/-- Claim C10: extracting the digest back out of a freshly built
history entry recovers exactly the metadata digest of the stamped
record, whatever the action label, blame result and repository state —
the ISO timestamp cannot contain `digest=`, the SHA-1 digest is exactly
forty hex digits, and the leftmost regex match is therefore the stamped
one. -/
theorem history_entry_digest_round_trip (a : CodeArtifact) (m : TagMetadata)
    (ts : String) (action : Option String) (ci : Option CommitInfo)
    (rd : Option Bool) (hts : ∀ c ∈ ts.data, c ∈ isoChars) :
    extract_digest (some (build_history_entry a m ts action ci rd)) =
      some (compute_digest m) := by
  have hlen : (compute_digest m).data.length = 40 := sha1Hex_data_length _
  have hhex : ∀ c ∈ (compute_digest m).data, hexLower c = true := sha1Hex_data_hexLower _
  have hdsg : ("digest=" ++ compute_digest m).data =
      digestMarker ++ (compute_digest m).data := String.data_append _ _
  obtain ⟨tail, htail⟩ : ∃ tail : List Char,
      (build_history_entry a m ts action ci rd).data =
      ts.data ++ ' ' :: (digestMarker ++ ((compute_digest m).data ++ ' ' :: tail)) := by
    cases action with
    | none =>
      refine ⟨(commit_segment ci rd).data, ?_⟩
      show (pyJoin " " [ts, "digest=" ++ compute_digest m, commit_segment ci rd]).data = _
      rw [pyJoin_three_data, hdsg, List.append_assoc]
    | some act =>
      refine ⟨act.data ++ ' ' :: (commit_segment ci rd).data, ?_⟩
      show (pyJoin " "
        [ts, "digest=" ++ compute_digest m, act, commit_segment ci rd]).data = _
      rw [pyJoin_four_data, hdsg, List.append_assoc]
  have hne : build_history_entry a m ts action ci rd ≠ "" := by
    intro hempty
    have hdat : (build_history_entry a m ts action ci rd).data = [] := by
      rw [hempty]
    rw [htail] at hdat
    simp at hdat
  simp only [extract_digest, if_neg hne, htail]
  have hsplit : ts.data ++ ' ' ::
      (digestMarker ++ ((compute_digest m).data ++ ' ' :: tail)) =
      (ts.data ++ [' ']) ++
      (digestMarker ++ ((compute_digest m).data ++ ' ' :: tail)) := by
    rw [List.append_assoc]
    rfl
  have hpre : ∀ c ∈ ts.data ++ [' '], c ≠ 'd' := by
    intro c hc
    rcases List.mem_append.1 hc with hc | hc
    · exact (by decide : ∀ x ∈ isoChars, x ≠ 'd') c (hts c hc)
    · simp only [List.mem_singleton] at hc
      rw [hc]
      decide
  rw [hsplit, searchDigest_append _ _ hpre, searchDigest_marker _ _ hlen hhex]
  rfl

/-- Witness for claim C10 at a concrete artifact, record, ISO
timestamp, action label and blame result. -/
theorem history_entry_digest_round_trip_witness :
    (∀ c ∈ ("2025-11-08T01:22:48.177963+00:00" : String).data, c ∈ isoChars) ∧
    extract_digest (some (build_history_entry
        { name := "add", artifact_type := "function", filepath := "sample.py",
          lineno := 1, end_lineno := some 2, start_line := 1, tags := {},
          indent := "", decorator := none }
        { ai_composed := some "gpt-5", human_certified := some "pending",
          scrutiny := some .auto, date := some "2025-11-08" }
        "2025-11-08T01:22:48.177963+00:00" (some "annotated")
        (some ⟨"f07d0d9abcdef", "phzwart"⟩) none)) =
      some (compute_digest
        { ai_composed := some "gpt-5", human_certified := some "pending",
          scrutiny := some .auto, date := some "2025-11-08" }) :=
  ⟨by decide,
   history_entry_digest_round_trip _ _ _ _ _ _ (by decide)⟩

/-! ## Claim C4: one reconciliation pass over a drifted entry -/

/-- The encoder never returns an empty line list: an empty payload
still yields the minimal `@certifai()` marker line. -/
theorem format_metadata_decorator_ne_nil (m : TagMetadata) (ind : String) :
    format_metadata_decorator m ind ≠ [] := by
  unfold format_metadata_decorator
  by_cases h : (to_decorator_payload m).isEmpty <;> simp [h]

/-- `update_metadata_blocks` on a single update: replace the decorator
block when one exists, otherwise report no change. -/
theorem update_metadata_blocks_single (a : CodeArtifact) (md : TagMetadata)
    (lines : List String) :
    update_metadata_blocks [(a, md)] lines =
      match a.decorator with
      | none => (lines, false)
      | some blk => (spliceLines lines (blk.start_line - 1) blk.end_line
          (format_metadata_decorator md a.indent), true) := by
  cases hd : a.decorator <;>
    simp [update_metadata_blocks, sortUpdatesDesc, sortDescBy, insertDescBy, hd]

/-- The reopen write-back always succeeds: either the existing block is
replaced, or a fresh block (never empty) is inserted. -/
theorem reopen_write_back_snd (a : CodeArtifact) (md : TagMetadata)
    (lines : List String) : (reopen_write_back a md lines).2 = true := by
  unfold reopen_write_back
  rw [update_metadata_blocks_single]
  cases hd : a.decorator with
  | some blk => rfl
  | none =>
    cases hfmt : format_metadata_decorator md a.indent with
    | nil => exact absurd hfmt (format_metadata_decorator_ne_nil md a.indent)
    | cons x xs => simp [insert_metadata_block, hfmt]

/-- Claim C4: for an active registry entry whose artifact still exists,
one reconciliation pass over that entry (a) on digest drift archives
exactly one record with reason `"code_changed"`, the old/new digest
pair, and the full prior entry (carrying the appended `reopened`
lifecycle event) copied into the archive, writes the minimal pending
metadata back into the file, removes the entry from the active map and
emits one audit notification, while (b) on a matching digest it leaves
the file system, the registry and the audit stream untouched.  The
written-back record carries over only `ai_composed`, with `reviewers`
cleared, and is pending. -/
theorem reconcile_registry_entry_spec (pd : String → Option String)
    (scanner : List String → List CodeArtifact) (now : String)
    (fs : List (String × List String)) (k : String × String) (e : RegistryEntry)
    (hist0 : List ArchiveRecord) (lines : List String) (artifact : CodeArtifact)
    (hfs : fsFind fs k.1 = some lines)
    (hart : artifactByName (scanner lines) k.2 = some artifact) :
    (compute_artifact_digest pd artifact lines ≠ e.digest →
      reconcile_pass pd scanner now fs ⟨[(k, e)], hist0⟩ =
        { fs := fsSet fs k.1
            (reopen_write_back artifact (metadata_from_entry e) lines).1
          registry :=
            { entries := [],
              history := hist0 ++
                [{ filepath := e.filepath, qualified_name := e.qualified_name,
                   archived_at := now, reason := "code_changed",
                   old_digest := some e.digest,
                   new_digest := some (compute_artifact_digest pd artifact lines),
                   entry := append_lifecycle_event e "reopened" now
                     (some "code_changed") (some e.digest)
                     (some (compute_artifact_digest pd artifact lines)) }] }
          updated := [k.1]
          audit := [⟨k.2, "digest_mismatch", e.digest,
                     compute_artifact_digest pd artifact lines⟩] }) ∧
    (compute_artifact_digest pd artifact lines = e.digest →
      reconcile_pass pd scanner now fs ⟨[(k, e)], hist0⟩ =
        ⟨fs, ⟨[(k, e)], hist0⟩, [], []⟩) ∧
    metadata_from_entry e = { ai_composed := e.ai_composed } ∧
    is_pending_certification (metadata_from_entry e) = true := by
  refine ⟨?_, ?_, rfl, rfl⟩
  · intro hne
    have hb : (compute_artifact_digest pd artifact lines == e.digest) = false :=
      beq_eq_false_iff_ne.2 hne
    obtain ⟨nl, hnl⟩ : ∃ nl,
        reopen_write_back artifact (metadata_from_entry e) lines = (nl, true) :=
      ⟨(reopen_write_back artifact (metadata_from_entry e) lines).1, by
        rw [← reopen_write_back_snd artifact (metadata_from_entry e) lines]⟩
    show reconcile_entry pd scanner now ⟨fs, ⟨[(k, e)], hist0⟩, [], []⟩ k e = _
    rw [hnl]
    simp only [reconcile_entry, hfs, hart, hb, hnl, archive_registry_entry,
      append_lifecycle_event, storePop, Bool.false_eq_true, if_false]
    simp [List.filter]
  · intro heq
    have hb : (compute_artifact_digest pd artifact lines == e.digest) = true :=
      beq_iff_eq.2 heq
    show reconcile_entry pd scanner now ⟨fs, ⟨[(k, e)], hist0⟩, [], []⟩ k e = _
    simp only [reconcile_entry, hfs, hart, hb, if_true]

/-- Concrete data for the claim C4 witness: a file whose only artifact
carries an empty decorator block, and a registry entry for it. -/
def reconLines : List String := ["@certifai(", ")", "def f():", "    return 1"]

def reconArtifact : CodeArtifact :=
  { name := "f", artifact_type := "function", filepath := "m.py", lineno := 3,
    end_lineno := some 4, start_line := 1, tags := metadata_from_decorator [],
    indent := "", decorator := some ⟨1, 2, ["@certifai(", ")"]⟩ }

def reconEntry : RegistryEntry :=
  { filepath := "m.py", qualified_name := "f", digest := "stale",
    human_certified := "PHZ", scrutiny := some "high", ai_composed := some "gpt-5",
    finalized_at := "t0" }

/-- Witness for claim C4: on the concrete drifted entry the pass
empties the active map and archives one `code_changed` record with the
old digest; on the same entry with a matching digest the pass changes
nothing. -/
theorem reconcile_registry_entry_spec_witness :
    compute_artifact_digest (fun _ => none) reconArtifact reconLines ≠
      reconEntry.digest ∧
    (reconcile_pass (fun _ => none) (fun _ => [reconArtifact]) "t1"
        [("m.py", reconLines)] ⟨[(("m.py", "f"), reconEntry)], []⟩).registry.entries = [] ∧
    ((reconcile_pass (fun _ => none) (fun _ => [reconArtifact]) "t1"
        [("m.py", reconLines)] ⟨[(("m.py", "f"), reconEntry)], []⟩).registry.history.map
      fun r => (r.reason, r.old_digest, r.entry.qualified_name)) =
        [("code_changed", some "stale", "f")] ∧
    reconcile_pass (fun _ => none) (fun _ => [reconArtifact]) "t1"
        [("m.py", reconLines)]
        ⟨[(("m.py", "f"),
           { reconEntry with
             digest := compute_artifact_digest (fun _ => none) reconArtifact reconLines })],
          []⟩ =
      ⟨[("m.py", reconLines)],
       ⟨[(("m.py", "f"),
          { reconEntry with
            digest := compute_artifact_digest (fun _ => none) reconArtifact reconLines })],
         []⟩, [], []⟩ := by
  have h := reconcile_registry_entry_spec (fun _ => none) (fun _ => [reconArtifact])
    "t1" [("m.py", reconLines)] ("m.py", "f") reconEntry [] reconLines reconArtifact
    rfl rfl
  have hne : compute_artifact_digest (fun _ => none) reconArtifact reconLines ≠
      reconEntry.digest := by decide
  have hdrift := h.1 hne
  have h2 := reconcile_registry_entry_spec (fun _ => none) (fun _ => [reconArtifact])
    "t1" [("m.py", reconLines)] ("m.py", "f")
    { reconEntry with
      digest := compute_artifact_digest (fun _ => none) reconArtifact reconLines }
    [] reconLines reconArtifact rfl rfl
  refine ⟨hne, ?_, ?_, h2.2.1 rfl⟩
  · rw [hdrift]
  · rw [hdrift]
    rfl

end Certifai
